import Mathlib

/-!
A shallow embedding of `src/main.py` (vcf_qr_generator.py): a single-pass
pipeline that reads a vCard file, renders its text as QR images at three
fixed sizes, optionally composites a centered logo, and writes PNG files.

Python strings are modelled as Lean `String`, Python ints as `Nat`/`Int`
(with Python floor division `//` as `Int.fdiv`), PIL images as a record of
dimensions, mode, abstract pixel data and — for the external QR library —
the decodable payload the symbol carries.  Fallible Python code
(`sys.exit`, uncaught exceptions) is modelled by the `PyResult` type.
The external libraries (qrcode, PIL) are modelled only as far as the spec
describes their contract; the doc comments below mark each such point.
-/

/-- RGBA pixel. Channel values are bytes in the Python program; nothing in
this development depends on the 0..255 range, so plain `Nat` is used. -/
structure Pix where
  r : Nat
  g : Nat
  b : Nat
  a : Nat
  deriving DecidableEq

/-- PIL image modes used by the program: the QR library's native
black/white mode, and the RGB/RGBA modes produced by `convert`. -/
inductive PilMode where
  | bw
  | RGB
  | RGBA
  deriving DecidableEq

/-- Model of a PIL image.  `data` is the pixel grid (abstract: resampling
and blending formulas of PIL are not pixel-exact here).  `payload` models
the decodable QR content carried by the raster, for the round-trip
property: the external encoder stamps it, geometric operations keep it,
and excessive obstruction destroys it (see `pasteVal`). -/
structure Image where
  width : Nat
  height : Nat
  mode : PilMode
  data : Int → Int → Pix
  payload : Option String

instance : Inhabited Image :=
  ⟨⟨0, 0, PilMode.RGB, fun _ _ => ⟨0, 0, 0, 0⟩, none⟩⟩

/-- Outcome of running a piece of the Python program: normal value,
`sys.exit(msg)` (SystemExit with a printed message, process exit code 1),
or an uncaught exception (traceback, also a non-zero process exit). -/
inductive PyResult (α : Type) where
  | ok (a : α)
  | sysExit (msg : String)
  | raised (e : String)

/-- Process exit code produced by each outcome: `sys.exit(str)` and an
uncaught exception both terminate the interpreter with a non-zero code. -/
def PyResult.exitCode : PyResult α → Nat
  | .ok _ => 0
  | .sysExit _ => 1
  | .raised _ => 1

/-- True when the outcome is a `sys.exit` with a user-facing message. -/
def PyResult.isSysExit : PyResult α → Bool
  | .sysExit _ => true
  | _ => false

/-- Result of `path.open("r", encoding="utf-8")` followed by `f.read()`:
the content, a `FileNotFoundError`, or some other `OSError` (permission
denied, path is a directory, ...) described by its message. -/
inductive ReadResult where
  | ok (content : String)
  | notFound
  | openError (e : String)
  deriving DecidableEq

/-- The environment a run observes: the filesystem at the vcf path, the
result of `Image.open` at a logo path (error message when PIL raises),
the user's home directory and the process working directory. -/
structure Env where
  fsRead : String → ReadResult
  logoAt : String → Except String Image
  home : String
  cwd : String

/-- The double-quote character. -/
def dquo : Char := Char.ofNat 34

/-- The single-quote character. -/
def squo : Char := Char.ofNat 39

/-- Python `s.startswith(c)` for a one-character needle: the string is
non-empty and its first character is `c`. -/
def startsWithChar (s : String) (c : Char) : Bool :=
  match s.data with
  | [] => false
  | d :: _ => c == d

/-- Python `s.endswith(c)` for a one-character needle. -/
def endsWithChar (s : String) (c : Char) : Bool :=
  match s.data.getLast? with
  | none => false
  | some d => c == d

/-- One string starts with another, character by character. -/
def charsStart : List Char → List Char → Bool
  | [], _ => true
  | _ :: _, [] => false
  | c :: cs, d :: ds => c == d && charsStart cs ds

/-- String version of `charsStart`: does `s` start with `pre`. -/
def strStarts (s pre : String) : Bool := charsStart pre.data s.data

/-- Drop leading whitespace characters. -/
def dropLeadingWS : List Char → List Char
  | [] => []
  | c :: cs => if c.isWhitespace then dropLeadingWS cs else c :: cs

/-- Python `str.strip()` with no argument: trim whitespace at both ends. -/
def pyStrip (s : String) : String :=
  String.mk ((dropLeadingWS (dropLeadingWS s.data).reverse).reverse)

/-- Python `raw[1:-1]`: the string without its first and last character. -/
def dropFirstLast (s : String) : String :=
  String.mk ((s.data.drop 1).dropLast)

/-- The path separator character. -/
def slashChar : Char := Char.ofNat 47

/-- Split a character list at every occurrence of `sep`. -/
def splitOnChar (sep : Char) : List Char → List (List Char)
  | [] => [[]]
  | c :: cs =>
    match splitOnChar sep cs with
    | [] => if c == sep then [[], []] else [[c]]
    | r :: rs => if c == sep then [] :: r :: rs else (c :: r) :: rs

/-- Join path components with the separator. -/
def joinComponents : List String → String
  | [] => ""
  | [c] => c
  | c :: rest => c ++ "/" ++ joinComponents rest

/-- Normalize an absolute path string: drop empty and `.` components,
resolve `..` against the accumulated prefix components. Models the
normalization `Path.resolve()` performs (symlinks are not modelled). -/
def normalizePath (p : String) : String :=
  let comps := ((splitOnChar slashChar p.data).map String.mk).filter
    (fun c => c != "" && c != ".")
  let final := comps.foldl
    (fun (acc : List String) c => if c = ".." then acc.dropLast else acc ++ [c]) []
  "/" ++ joinComponents final

/-- Python `Path.expanduser()`: a leading bare `~` is replaced by the home
directory (the `~user` form is not modelled). -/
def expandUser (env : Env) (p : String) : String :=
  if p = "~" then env.home
  else if strStarts p "~/" then env.home ++ String.mk (p.data.drop 1)
  else p

/-- Python `Path.resolve()`: make the path absolute against the working
directory, then normalize. It does not check existence and has no error
case (strict mode is off by default). -/
def pathResolve (env : Env) (p : String) : String :=
  if strStarts p "/" then normalizePath p
  else normalizePath (env.cwd ++ "/" ++ p)

/-- `clean_path` from src/main.py: trim whitespace; when the trimmed
string both starts and ends with a double quote, or both starts and ends
with a single quote, drop the first and last character (Python
`raw[1:-1]`); then expanduser and resolve. -/
def cleanPath (env : Env) (raw : String) : String :=
  let t := pyStrip raw
  let t :=
    if (startsWithChar t dquo && endsWithChar t dquo)
        || (startsWithChar t squo && endsWithChar t squo)
    then dropFirstLast t
    else t
  pathResolve env (expandUser env t)

/-- `read_vcf` from src/main.py: open and read the file; only
`FileNotFoundError` is caught and turned into `sys.exit`; any other
open/read error propagates as an uncaught exception. -/
def read_vcf (env : Env) (path : String) : PyResult String :=
  match env.fsRead path with
  | .ok c => .ok c
  | .notFound => .sysExit ("❌ VCF not found: " ++ path)
  | .openError e => .raised e

/-- `Path.stem` of pathlib: the final path component without its suffix;
the suffix is dropped only when the last dot sits strictly inside the
name (not at position 0 and not at the end). -/
def stemOf (p : String) : String :=
  let cs := (splitOnChar slashChar p.data).getLastD []
  let rev := cs.reverse.indexOf (Char.ofNat 46)
  if rev < cs.length then
    let i := cs.length - 1 - rev
    if 0 < i ∧ i < cs.length - 1 then String.mk (cs.take i) else String.mk cs
  else String.mk cs

/-- STANDARD_SIZES from src/main.py (a Python tuple of three ints). -/
def STANDARD_SIZES : List Nat := [300, 600, 1000]

/-- LOGO_SCALE from src/main.py.  The Python literal is the float `0.30`;
it is modelled by the exact rational 3/10 (for every target size used by
the program, `int(t * 0.30)` under IEEE doubles equals the exact floor). -/
def LOGO_SCALE : ℚ := 3 / 10

/-- Side of the resized logo square: Python `int(target_px * LOGO_SCALE)`,
i.e. the floor of the exact product. -/
def logoSide (target_px : Nat) : Nat :=
  Nat.floor ((target_px : ℚ) * LOGO_SCALE)

/-- The quiet-zone border of `qrcode.QRCode(..., border=4)`, in modules. -/
def QR_BORDER : Nat := 4

/-- Default `box_size` of `qrcode.QRCode` (pixels per module). -/
def QR_BOX_SIZE : Nat := 10

/-- Modelled from the spec: byte-mode data capacities of QR versions 1..40
at error-correction level H (the external qrcode library's capacity
table; ≈30 % of codewords recoverable). -/
def QR_CAPACITY_H : List Nat :=
  [7, 14, 24, 34, 44, 58, 64, 84, 98, 119, 137, 155, 177, 194, 220, 250,
   280, 310, 338, 382, 403, 439, 461, 511, 535, 593, 625, 658, 698, 742,
   790, 842, 898, 958, 983, 1051, 1093, 1139, 1219, 1273]

/-- Modelled from the spec: `qr.make(fit=True)` version selection — the
smallest version 1..40 whose capacity holds the payload's bytes; `none`
when even version 40 is too small (the library raises DataOverflowError). -/
def qrFitVersion (data : String) : Option Nat :=
  (List.range 40).findSome? fun i =>
    if data.utf8ByteSize ≤ QR_CAPACITY_H.getD i 0 then some (i + 1) else none

/-- The payload fits some supported QR version at level H. -/
def fitsQR (data : String) : Bool := (qrFitVersion data).isSome

/-- Module count per side of a version-`v` QR symbol. -/
def qrModules (v : Nat) : Nat := 4 * v + 17

/-- Modelled from the spec: the raster the external library returns for
`qr.make_image(fill_color="black", back_color="white")` — a black/white
image at the symbol's native resolution ((modules + 2·border)·box_size)
whose scannable content is exactly the data that was added. The concrete
module pattern is abstracted to a constant grid; no claim depends on it. -/
def qrRasterRaw (data : String) (v : Nat) : Image :=
  { width := (qrModules v + 2 * QR_BORDER) * QR_BOX_SIZE
    height := (qrModules v + 2 * QR_BORDER) * QR_BOX_SIZE
    mode := PilMode.bw
    data := fun _ _ => ⟨0, 0, 0, 255⟩
    payload := some data }

/-- PIL `convert`: changes the mode, keeps dimensions and content (the
channel-conversion arithmetic is not pixel-modelled). -/
def convertMode (img : Image) (m : PilMode) : Image :=
  { img with mode := m }

/-- PIL `resize((w, h), LANCZOS)`: the result has exactly the requested
dimensions and the same mode; the resampling arithmetic is abstracted to
nearest-neighbour sampling. Scannable content survives a resize (the
spec's post-encode resize keeps the output decodable). -/
def resizeImg (img : Image) (w h : Nat) : Image :=
  { width := w
    height := h
    mode := img.mode
    data := fun x y => img.data (x * img.width / w) (y * img.height / h)
    payload := img.payload }

/-- Alpha blend of a base pixel with an overlay pixel (PIL paste-with-mask;
the exact rounding of PIL's blend is not claim-relevant). -/
def alphaBlend (p q : Pix) : Pix :=
  if q.a = 0 then p
  else if q.a = 255 then q
  else ⟨(q.r * q.a + p.r * (255 - q.a)) / 255,
        (q.g * q.a + p.g * (255 - q.a)) / 255,
        (q.b * q.a + p.b * (255 - q.a)) / 255, 255⟩

/-- Modelled from the spec: the pasted logo obscures the symbol without
exceeding the EC-H recovery margin exactly when its area is at most 30 %
of the QR image's area. -/
def coverageOk (base logo : Image) : Bool :=
  logo.width * logo.height * 10 ≤ 3 * (base.width * base.height)

/-- PIL `base.paste(logo, (lx, ly), mask=logo)` as a pure value: the
mutated state of `base`. Dimensions and mode are unchanged; pixels inside
the logo rectangle are alpha-blended. The payload survives exactly when
the obstruction stays within the error-correction margin (`coverageOk`). -/
def pasteVal (base logo : Image) (lx ly : Int) : Image :=
  { width := base.width
    height := base.height
    mode := base.mode
    data := fun x y =>
      if lx ≤ x ∧ x < lx + logo.width ∧ ly ≤ y ∧ y < ly + logo.height then
        alphaBlend (base.data x y) (logo.data (x - lx) (y - ly))
      else base.data x y
    payload := if coverageOk base logo then base.payload else none }

/-- Modelled from the spec: decoding a produced image with an external QR
reader recovers the scannable content the image carries, when any. -/
def decodeQR (img : Image) : Option String := img.payload

/-- `load_logo` from src/main.py: `Image.open(path).convert("RGBA")`, with
any exception turned into `sys.exit`; then a non-aspect-preserving square
LANCZOS resize to side `int(target_px * LOGO_SCALE)`. -/
def load_logo (env : Env) (path : String) (target_px : Nat) : PyResult Image :=
  match env.logoAt path with
  | .error e => .sysExit ("❌ Failed to load logo (" ++ e ++ ")")
  | .ok logo =>
      .ok (resizeImg (convertMode logo PilMode.RGBA)
            (logoSide target_px) (logoSide target_px))

/-- `make_qr_image` from src/main.py: build the QR at level H with a
4-module border and best-fit version, rasterize black on white, convert
to RGB, and resize to exactly `size_px` × `size_px`. A payload beyond
version 40's capacity raises the library's overflow error. -/
def make_qr_image (data : String) (size_px : Nat) : PyResult Image :=
  match qrFitVersion data with
  | none => .raised "qrcode.exceptions.DataOverflowError"
  | some v =>
      .ok (resizeImg (convertMode (qrRasterRaw data v) PilMode.RGB)
            size_px size_px)

/-- The image `make_qr_image` produces on success. -/
def renderQR (data : String) (size_px : Nat) : Image :=
  resizeImg (convertMode (qrRasterRaw data ((qrFitVersion data).getD 1)) PilMode.RGB)
    size_px size_px

/-- `embed_logo` from src/main.py as a pure value: the composite built on
a copy of `qr_img`, with the logo centered by Python floor division. -/
def embedLogo (qrImg logoImg : Image) : Image :=
  let lx := ((qrImg.width : Int) - (logoImg.width : Int)).fdiv 2
  let ly := ((qrImg.height : Int) - (logoImg.height : Int)).fdiv 2
  pasteVal qrImg logoImg lx ly

/-- A heap of PIL image objects, for stating which objects a call
mutates: references are allocation order, `mem r` is the current state of
object `r`, and every reference at or above `next` is unallocated. -/
structure Store where
  mem : Nat → Option Image
  next : Nat

/-- Allocate a fresh image object. -/
def Store.alloc (s : Store) (img : Image) : Store × Nat :=
  ({ mem := fun r => if r = s.next then some img else s.mem r,
     next := s.next + 1 }, s.next)

/-- Overwrite the state of an existing object (in-place mutation). -/
def Store.setRef (s : Store) (r : Nat) (img : Image) : Store :=
  { mem := fun q => if q = r then some img else s.mem q, next := s.next }

/-- `embed_logo` from src/main.py on the object heap: `qr = qr_img.copy()`
allocates a fresh object, `qr.paste(logo_img, (lx, ly), mask=logo_img)`
mutates only that copy, and the copy's reference is returned. -/
def embedLogoS (s : Store) (qrRef logoRef : Nat) : Store × Nat :=
  let qrImg := (s.mem qrRef).getD default
  let logoImg := (s.mem logoRef).getD default
  let (s1, copyRef) := s.alloc qrImg
  let lx := ((qrImg.width : Int) - (logoImg.width : Int)).fdiv 2
  let ly := ((qrImg.height : Int) - (logoImg.height : Int)).fdiv 2
  (s1.setRef copyRef (pasteVal qrImg logoImg lx ly), copyRef)

/-- Trace of one run of `main`: the sizes passed to `make_qr_image`, the
sizes passed to `load_logo`, the number of `embed_logo` calls, and the
files written by `save` as (name, image) pairs, all in program order. -/
structure RunTrace where
  renders : List Nat
  loads : List Nat
  embeds : Nat
  writes : List (String × Image)

/-- The trace at program start. -/
def emptyTrace : RunTrace := ⟨[], [], 0, []⟩

/-- The `for size in STANDARD_SIZES` loop body of `main`, threading the
trace; a `sys.exit` or uncaught exception anywhere stops the run with the
trace accumulated so far. -/
def runSizes (env : Env) (text : String) (logoPath : Option String)
    (base : String) : List Nat → RunTrace → PyResult Unit × RunTrace
  | [], tr => (.ok (), tr)
  | size :: rest, tr =>
    let tr := { tr with renders := tr.renders ++ [size] }
    match make_qr_image text size with
    | .sysExit e => (.sysExit e, tr)
    | .raised e => (.raised e, tr)
    | .ok qrImg =>
      match logoPath with
      | none =>
        let out := (base ++ "_" ++ toString size ++ "px.png", qrImg)
        runSizes env text logoPath base rest
          { tr with writes := tr.writes ++ [out] }
      | some lp =>
        let tr := { tr with loads := tr.loads ++ [size] }
        match load_logo env lp size with
        | .sysExit e => (.sysExit e, tr)
        | .raised e => (.raised e, tr)
        | .ok logoImg =>
          let composite := embedLogo qrImg logoImg
          let out := (base ++ "_" ++ toString size ++ "px.png", composite)
          runSizes env text logoPath base rest
            { tr with embeds := tr.embeds + 1, writes := tr.writes ++ [out] }

/-- `main` from src/main.py, over the two interactive answers and the
environment: resolve the vcf path, read it (fatal on failure), decide the
logo path (`clean_path(logo_raw) if logo_raw.strip() else None`), then
render, optionally composite, and save at each standard size. File names
are relative, so `save` writes into the working directory. -/
def mainRun (env : Env) (vcfRaw logoRaw : String) : PyResult Unit × RunTrace :=
  let vcfPath := cleanPath env vcfRaw
  match read_vcf env vcfPath with
  | .sysExit e => (.sysExit e, emptyTrace)
  | .raised e => (.raised e, emptyTrace)
  | .ok text =>
    let logoPath := if pyStrip logoRaw ≠ "" then some (cleanPath env logoRaw) else none
    let base := stemOf vcfPath
    runSizes env text logoPath base STANDARD_SIZES emptyTrace

/-- Modelled from the spec (amended wording for the path resolver): the
quote pair is stripped when the trimmed string is non-empty and its first
and last characters are the same straight quote — including the
degenerate one-character case of a lone quote. -/
def specQuoteStrippable (t : String) : Bool :=
  !t.data.isEmpty
    && ((startsWithChar t dquo && endsWithChar t dquo)
        || (startsWithChar t squo && endsWithChar t squo))

/-- Modelled from the spec (original wording): the entire trimmed string
is wrapped in a single matching pair of straight quote characters, which
requires at least two characters. -/
def specWrappedInPair (t : String) : Bool :=
  (2 ≤ t.data.length : Bool)
    && ((startsWithChar t dquo && endsWithChar t dquo)
        || (startsWithChar t squo && endsWithChar t squo))

/-- The path resolver the amended spec wording describes. -/
def spec_cleanPath (env : Env) (raw : String) : String :=
  let t := pyStrip raw
  let t := if specQuoteStrippable t then dropFirstLast t else t
  pathResolve env (expandUser env t)

/-- The path resolver the spec's original wording describes: stripping
happens only for a genuine two-character wrapping pair. -/
def spec_cleanPath_pair (env : Env) (raw : String) : String :=
  let t := pyStrip raw
  let t := if specWrappedInPair t then dropFirstLast t else t
  pathResolve env (expandUser env t)

/-- Environment for the lone-quote counterexample. -/
def envC7 : Env :=
  { fsRead := fun _ => .notFound, logoAt := fun _ => .error "e",
    home := "/home/u", cwd := "/home/u" }

/-- Environment whose vcf file exists but cannot be opened (for example a
permission error), so `open` raises an `OSError` other than
`FileNotFoundError`. -/
def envC4 : Env :=
  { fsRead := fun _ => .openError "PermissionError 13", logoAt := fun _ => .error "e",
    home := "/h", cwd := "/h" }

/-- A concrete logo image for witnesses. -/
def imgW : Image := default

/-- Environment where both the vcf file and the logo load fine. -/
def envOkLogo : Env :=
  { fsRead := fun _ => .ok "x", logoAt := fun _ => .ok imgW,
    home := "/h", cwd := "/h" }

/-- Environment where the vcf file is missing. -/
def envNoFile : Env :=
  { fsRead := fun _ => .notFound, logoAt := fun _ => .error "e",
    home := "/h", cwd := "/h" }

/-- Environment where the vcf file reads fine but no path holds a
decodable logo image (PIL raises for every candidate). -/
def envBadLogo : Env :=
  { fsRead := fun _ => .ok "x", logoAt := fun _ => .error "cannot identify image file",
    home := "/h", cwd := "/h" }

/-- A concrete two-object store for the compositor frame witness. -/
def storeW : Store :=
  { mem := fun r => if r = 0 then some imgW else if r = 1 then some imgW else none,
    next := 2 }

/-- Appending the empty string is the identity. -/
theorem str_append_empty (s : String) : s ++ "" = s := by
  cases s with
  | mk d => show String.mk (d ++ []) = String.mk d
            simp

/-- The floor of `t * 3/10` over ℚ is natural floor division. -/
theorem logoSide_eq (t : Nat) : logoSide t = 3 * t / 10 := by
  unfold logoSide LOGO_SCALE
  rw [show ((t : ℚ) * (3 / 10)) = ((3 * t : ℕ) : ℚ) / ((10 : ℕ) : ℚ) by push_cast; ring]
  rw [Nat.floor_div_nat, Nat.floor_natCast]

/-- The Python quote test of `clean_path` coincides with the amended spec
wording for every trimmed string. -/
theorem quoteCond_eq (t : String) :
    ((startsWithChar t dquo && endsWithChar t dquo)
      || (startsWithChar t squo && endsWithChar t squo)) = specQuoteStrippable t := by
  unfold specQuoteStrippable startsWithChar
  cases hd : t.data <;> simp [hd]

/-- Resolution always yields a slash-prefixed (absolute) path. -/
theorem pathResolve_abs (env : Env) (p : String) :
    ∃ rest, pathResolve env p = "/" ++ rest := by
  unfold pathResolve normalizePath
  split <;> exact ⟨_, rfl⟩

/-- Pasting within the error-correction margin keeps the content. -/
theorem decode_pasteVal (base logo : Image) (lx ly : Int)
    (h : coverageOk base logo = true) :
    decodeQR (pasteVal base logo lx ly) = decodeQR base := by
  simp [decodeQR, pasteVal, h]

/-- The square of `3s/10` stays under 30 percent of `s²`. -/
theorem coverage_bound (s : Nat) : 3 * s / 10 * (3 * s / 10) * 10 ≤ 3 * (s * s) := by
  have h1 : 3 * s / 10 * 10 ≤ 3 * s := Nat.div_mul_le_self (3 * s) 10
  have h2 : 3 * s / 10 ≤ s :=
    Nat.le_of_mul_le_mul_right (h1.trans (by omega)) (by norm_num)
  calc 3 * s / 10 * (3 * s / 10) * 10 = 3 * s / 10 * 10 * (3 * s / 10) := by ring
    _ ≤ 3 * s * (3 * s / 10) := Nat.mul_le_mul_right _ h1
    _ ≤ 3 * s * s := Nat.mul_le_mul_left _ h2
    _ = 3 * (s * s) := by ring

/-- A logo resized by `LOGO_SCALE` never exceeds the EC margin of a QR
image rendered at the same target size. -/
theorem coverage_render (text : String) (s : Nat) (L : Image) :
    coverageOk (renderQR text s) (resizeImg L (logoSide s) (logoSide s)) = true := by
  simp only [coverageOk, renderQR, resizeImg, logoSide_eq, decide_eq_true_eq]
  exact coverage_bound s

/-- Compositing the scaled logo onto a rendered QR keeps it decodable. -/
theorem decode_embed_render (text : String) (s : Nat) (L : Image) :
    decodeQR (embedLogo (renderQR text s) (resizeImg L (logoSide s) (logoSide s)))
      = some text := by
  rw [embedLogo, decode_pasteVal _ _ _ _ (coverage_render text s L)]
  rfl

/-- C1: for every text payload that fits some supported QR version at
level-H redundancy and every positive target pixel size, `make_qr_image`
succeeds and returns a square RGB image whose width and height both equal
exactly the target size, regardless of the symbol's native module count. -/
theorem make_qr_image_exact_size (data : String) (size : Nat)
    (hfit : fitsQR data = true) (hpos : 0 < size) :
    make_qr_image data size = .ok (renderQR data size) ∧
    (renderQR data size).width = size ∧
    (renderQR data size).height = size ∧
    (renderQR data size).mode = PilMode.RGB := by
  obtain ⟨v, hver⟩ := Option.isSome_iff_exists.mp (by simpa [fitsQR] using hfit)
  exact ⟨by simp [make_qr_image, renderQR, hver], rfl, rfl, rfl⟩

/-- Witness for C1 at the payload "BEGIN:VCARD" and size 300. -/
theorem make_qr_image_exact_size_witness :
    fitsQR "BEGIN:VCARD" = true ∧ 0 < 300 ∧
    (make_qr_image "BEGIN:VCARD" 300 = .ok (renderQR "BEGIN:VCARD" 300) ∧
     (renderQR "BEGIN:VCARD" 300).width = 300 ∧
     (renderQR "BEGIN:VCARD" 300).height = 300 ∧
     (renderQR "BEGIN:VCARD" 300).mode = PilMode.RGB) :=
  ⟨by decide, by decide, make_qr_image_exact_size "BEGIN:VCARD" 300 (by decide) (by decide)⟩

/-- C2: for every VCF text payload within QR capacity, decoding any of
the three produced images — with or without the logo, whose fixed scale
keeps the obstruction inside the EC-H margin — yields back exactly the
original file's text content. -/
theorem round_trip_decode (env : Env) (vcfRaw logoRaw text : String)
    (hv : env.fsRead (cleanPath env vcfRaw) = .ok text)
    (hf : fitsQR text = true)
    (hl : pyStrip logoRaw = "" ∨ ∃ limg, env.logoAt (cleanPath env logoRaw) = .ok limg) :
    (mainRun env vcfRaw logoRaw).2.writes.map (fun w => decodeQR w.2)
      = [some text, some text, some text] := by
  obtain ⟨v, hver⟩ := Option.isSome_iff_exists.mp (by simpa [fitsQR] using hf)
  have hrq : ∀ s : Nat, renderQR text s
      = resizeImg (convertMode (qrRasterRaw text v) PilMode.RGB) s s := by
    intro s; rw [renderQR, hver]; rfl
  by_cases hs : pyStrip logoRaw = ""
  · simp [mainRun, read_vcf, hv, hs, STANDARD_SIZES, runSizes, make_qr_image, hver,
      emptyTrace, decodeQR, resizeImg, convertMode, qrRasterRaw]
  · rcases hl with hb | ⟨limg, hlo⟩
    · exact absurd hb hs
    · have hd : ∀ s : Nat, decodeQR (embedLogo
          (resizeImg (convertMode (qrRasterRaw text v) PilMode.RGB) s s)
          (resizeImg (convertMode limg PilMode.RGBA) (logoSide s) (logoSide s)))
          = some text := by
        intro s
        rw [← hrq]
        exact decode_embed_render text s (convertMode limg PilMode.RGBA)
      simp [mainRun, read_vcf, hv, hs, STANDARD_SIZES, runSizes, make_qr_image, hver,
        load_logo, hlo, emptyTrace, hd]

/-- Witness for C2: a run with payload "x" and a loadable logo decodes
every produced image back to "x". -/
theorem round_trip_decode_witness :
    envOkLogo.fsRead (cleanPath envOkLogo "/a.vcf") = .ok "x" ∧
    fitsQR "x" = true ∧
    (pyStrip "/l.png" = "" ∨ ∃ limg, envOkLogo.logoAt (cleanPath envOkLogo "/l.png") = .ok limg) ∧
    (mainRun envOkLogo "/a.vcf" "/l.png").2.writes.map (fun w => decodeQR w.2)
      = [some "x", some "x", some "x"] :=
  ⟨rfl, by decide, Or.inr ⟨imgW, rfl⟩,
    round_trip_decode envOkLogo "/a.vcf" "/l.png" "x" rfl (by decide) (Or.inr ⟨imgW, rfl⟩)⟩

/-- C3: on a successful run the renderer is invoked exactly once per
fixed size, in the declared order 300, 600, 1000, and exactly one file
per size is written, named from the input's base name and the size. -/
theorem main_success_files (env : Env) (vcfRaw logoRaw text : String)
    (hv : env.fsRead (cleanPath env vcfRaw) = .ok text)
    (hf : fitsQR text = true)
    (hl : pyStrip logoRaw = "" ∨ ∃ limg, env.logoAt (cleanPath env logoRaw) = .ok limg) :
    (mainRun env vcfRaw logoRaw).1 = .ok () ∧
    (mainRun env vcfRaw logoRaw).2.renders = [300, 600, 1000] ∧
    (mainRun env vcfRaw logoRaw).2.writes.map (fun w => w.1)
      = [stemOf (cleanPath env vcfRaw) ++ "_300px.png",
         stemOf (cleanPath env vcfRaw) ++ "_600px.png",
         stemOf (cleanPath env vcfRaw) ++ "_1000px.png"] := by
  obtain ⟨v, hver⟩ := Option.isSome_iff_exists.mp (by simpa [fitsQR] using hf)
  by_cases hs : pyStrip logoRaw = ""
  · simp [mainRun, read_vcf, hv, hs, STANDARD_SIZES, runSizes, make_qr_image, hver,
      emptyTrace, String.append_assoc]
    exact ⟨rfl, rfl, rfl⟩
  · rcases hl with hb | ⟨limg, hlo⟩
    · exact absurd hb hs
    · simp [mainRun, read_vcf, hv, hs, STANDARD_SIZES, runSizes, make_qr_image, hver,
        load_logo, hlo, emptyTrace, String.append_assoc]
      exact ⟨rfl, rfl, rfl⟩

/-- Witness for C3: a logo-less run over the file /a.vcf renders at 300,
600, 1000 in order and writes a_300px.png, a_600px.png, a_1000px.png. -/
theorem main_success_files_witness :
    envOkLogo.fsRead (cleanPath envOkLogo "/a.vcf") = .ok "x" ∧
    fitsQR "x" = true ∧
    (pyStrip "" = "" ∨ ∃ limg, envOkLogo.logoAt (cleanPath envOkLogo "") = .ok limg) ∧
    ((mainRun envOkLogo "/a.vcf" "").1 = .ok () ∧
     (mainRun envOkLogo "/a.vcf" "").2.renders = [300, 600, 1000] ∧
     (mainRun envOkLogo "/a.vcf" "").2.writes.map (fun w => w.1)
       = [stemOf (cleanPath envOkLogo "/a.vcf") ++ "_300px.png",
          stemOf (cleanPath envOkLogo "/a.vcf") ++ "_600px.png",
          stemOf (cleanPath envOkLogo "/a.vcf") ++ "_1000px.png"]) :=
  ⟨rfl, by decide, Or.inl rfl,
    main_success_files envOkLogo "/a.vcf" "" "x" rfl (by decide) (Or.inl rfl)⟩

/-- Counterexample to C4 as stated: a vcf file that exists but cannot be
opened (an `OSError` other than `FileNotFoundError`, here a permission
error) makes `read_vcf` re-raise the exception — the program still dies
with a non-zero exit, but not through the user-facing `sys.exit` message
identifying the missing path that the claim promises for every
cannot-open failure. -/
theorem read_vcf_unopenable_counterexample :
    envC4.fsRead (cleanPath envC4 "/h/contacts.vcf") = .openError "PermissionError 13" ∧
    (read_vcf envC4 (cleanPath envC4 "/h/contacts.vcf")).isSysExit = false ∧
    (read_vcf envC4 (cleanPath envC4 "/h/contacts.vcf")).exitCode = 1 :=
  ⟨rfl, rfl, rfl⟩

/-- C4 (amended): for every resolved source path whose file does not
exist, the reader terminates the program at once through `sys.exit` with
a message identifying the missing path, exit code 1, and no render or
write step runs; other open failures also abort with a non-zero exit but
as an uncaught exception without that message. -/
theorem vcf_missing_fatal (env : Env) (vcfRaw logoRaw : String)
    (h : env.fsRead (cleanPath env vcfRaw) = .notFound) :
    mainRun env vcfRaw logoRaw
      = (.sysExit ("❌ VCF not found: " ++ cleanPath env vcfRaw), emptyTrace) ∧
    (mainRun env vcfRaw logoRaw).1.exitCode = 1 ∧
    (mainRun env vcfRaw logoRaw).2.renders = [] ∧
    (mainRun env vcfRaw logoRaw).2.writes = [] := by
  simp [mainRun, read_vcf, h, emptyTrace, PyResult.exitCode]

/-- Witness for C4 (amended) on a missing /a.vcf. -/
theorem vcf_missing_fatal_witness :
    envNoFile.fsRead (cleanPath envNoFile "/a.vcf") = .notFound ∧
    (mainRun envNoFile "/a.vcf" ""
       = (.sysExit ("❌ VCF not found: " ++ cleanPath envNoFile "/a.vcf"), emptyTrace) ∧
     (mainRun envNoFile "/a.vcf" "").1.exitCode = 1 ∧
     (mainRun envNoFile "/a.vcf" "").2.renders = [] ∧
     (mainRun envNoFile "/a.vcf" "").2.writes = []) :=
  ⟨rfl, vcf_missing_fatal envNoFile "/a.vcf" "" rfl⟩

/-- C5: when a logo path was supplied and the logo cannot be loaded or
decoded, the run stops through `sys.exit` with the descriptive message
and exit code 1 before any output file is written, and never falls back
to logo-less output. -/
theorem logo_failure_fatal (env : Env) (vcfRaw logoRaw text e : String)
    (hv : env.fsRead (cleanPath env vcfRaw) = .ok text)
    (hf : fitsQR text = true)
    (hs : pyStrip logoRaw ≠ "")
    (hl : env.logoAt (cleanPath env logoRaw) = .error e) :
    (mainRun env vcfRaw logoRaw).1 = .sysExit ("❌ Failed to load logo (" ++ e ++ ")") ∧
    (mainRun env vcfRaw logoRaw).1.exitCode = 1 ∧
    (mainRun env vcfRaw logoRaw).2.writes = [] := by
  obtain ⟨v, hver⟩ := Option.isSome_iff_exists.mp (by simpa [fitsQR] using hf)
  simp [mainRun, read_vcf, hv, hs, STANDARD_SIZES, runSizes, make_qr_image, hver,
    load_logo, hl, emptyTrace, PyResult.exitCode]

/-- Witness for C5: an undecodable logo at /bad.png aborts the run with
the logo message and zero files written. -/
theorem logo_failure_fatal_witness :
    envBadLogo.fsRead (cleanPath envBadLogo "/a.vcf") = .ok "x" ∧
    fitsQR "x" = true ∧
    pyStrip "/bad.png" ≠ "" ∧
    envBadLogo.logoAt (cleanPath envBadLogo "/bad.png") = .error "cannot identify image file" ∧
    ((mainRun envBadLogo "/a.vcf" "/bad.png").1
       = .sysExit ("❌ Failed to load logo (" ++ "cannot identify image file" ++ ")") ∧
     (mainRun envBadLogo "/a.vcf" "/bad.png").1.exitCode = 1 ∧
     (mainRun envBadLogo "/a.vcf" "/bad.png").2.writes = []) :=
  ⟨rfl, by decide, by decide, rfl,
    logo_failure_fatal envBadLogo "/a.vcf" "/bad.png" "x" "cannot identify image file"
      rfl (by decide) (by decide) rfl⟩

/-- C6: `embed_logo` allocates a fresh composited image whose dimensions
equal the input QR image's, and the input QR object is left unmodified —
the paste happens on the copy, a different reference. -/
theorem embed_logo_frame (s : Store) (qrRef logoRef : Nat) (qrImg logoImg : Image)
    (hq : s.mem qrRef = some qrImg) (hl : s.mem logoRef = some logoImg)
    (hok : qrRef < s.next) :
    (embedLogoS s qrRef logoRef).2 ≠ qrRef ∧
    (embedLogoS s qrRef logoRef).1.mem (embedLogoS s qrRef logoRef).2
      = some (embedLogo qrImg logoImg) ∧
    (embedLogo qrImg logoImg).width = qrImg.width ∧
    (embedLogo qrImg logoImg).height = qrImg.height ∧
    (embedLogoS s qrRef logoRef).1.mem qrRef = some qrImg := by
  have hne : qrRef ≠ s.next := by omega
  refine ⟨by simp [embedLogoS, Store.alloc, Store.setRef]; omega, ?_, rfl, rfl, ?_⟩
  · simp [embedLogoS, Store.alloc, Store.setRef, hq, hl, embedLogo]
  · simp [embedLogoS, Store.alloc, Store.setRef, hq, hne]

/-- Witness for C6 on a concrete two-object store. -/
theorem embed_logo_frame_witness :
    storeW.mem 0 = some imgW ∧ storeW.mem 1 = some imgW ∧ 0 < storeW.next ∧
    ((embedLogoS storeW 0 1).2 ≠ 0 ∧
     (embedLogoS storeW 0 1).1.mem (embedLogoS storeW 0 1).2
       = some (embedLogo imgW imgW) ∧
     (embedLogo imgW imgW).width = imgW.width ∧
     (embedLogo imgW imgW).height = imgW.height ∧
     (embedLogoS storeW 0 1).1.mem 0 = some imgW) :=
  ⟨rfl, rfl, by decide, embed_logo_frame storeW 0 1 imgW imgW rfl rfl (by decide)⟩

/-- Counterexample to C7 as stated: on a lone double-quote input the code
strips the "pair" even though the single character is not wrapped in a
matching pair, so `clean_path` disagrees with the original spec wording
(the code maps the quote to the working directory, the spec-worded
resolver to a path still holding the quote character). -/
theorem clean_path_lone_quote_counterexample :
    cleanPath envC7 (String.singleton dquo)
      ≠ spec_cleanPath_pair envC7 (String.singleton dquo) := by decide

/-- C7 (amended): the path resolver trims surrounding whitespace, drops
the first and last characters when the trimmed string starts and ends
with the same straight quote character — including the degenerate
one-character lone-quote case — expands a leading home shorthand, and
unconditionally returns an absolute normalized path with no error case. -/
theorem clean_path_amended (env : Env) (raw : String) :
    cleanPath env raw = spec_cleanPath env raw ∧
    (∃ rest, cleanPath env raw = "/" ++ rest) := by
  constructor
  · simp only [cleanPath, spec_cleanPath, quoteCond_eq]
  · exact pathResolve_abs env _

/-- C8: `load_logo` resizes the logo to a square (regardless of its
aspect ratio) whose side is the integer part of the target size times the
fixed scale fraction, and that fraction lies in the range 0.20–0.30. -/
theorem load_logo_scale (env : Env) (path : String) (t : Nat) (img : Image)
    (h : env.logoAt path = .ok img) :
    load_logo env path t
      = .ok (resizeImg (convertMode img PilMode.RGBA) (logoSide t) (logoSide t)) ∧
    logoSide t = Nat.floor ((t : ℚ) * LOGO_SCALE) ∧
    (1 / 5 : ℚ) ≤ LOGO_SCALE ∧ LOGO_SCALE ≤ 3 / 10 ∧
    (resizeImg (convertMode img PilMode.RGBA) (logoSide t) (logoSide t)).width = logoSide t ∧
    (resizeImg (convertMode img PilMode.RGBA) (logoSide t) (logoSide t)).height = logoSide t := by
  refine ⟨by simp [load_logo, h], rfl, by norm_num [LOGO_SCALE], by norm_num [LOGO_SCALE],
    rfl, rfl⟩

/-- Witness for C8 at target size 300. -/
theorem load_logo_scale_witness :
    envOkLogo.logoAt "/l.png" = .ok imgW ∧
    (load_logo envOkLogo "/l.png" 300
       = .ok (resizeImg (convertMode imgW PilMode.RGBA) (logoSide 300) (logoSide 300)) ∧
     logoSide 300 = Nat.floor ((300 : ℚ) * LOGO_SCALE) ∧
     (1 / 5 : ℚ) ≤ LOGO_SCALE ∧ LOGO_SCALE ≤ 3 / 10 ∧
     (resizeImg (convertMode imgW PilMode.RGBA) (logoSide 300) (logoSide 300)).width
       = logoSide 300 ∧
     (resizeImg (convertMode imgW PilMode.RGBA) (logoSide 300) (logoSide 300)).height
       = logoSide 300) :=
  ⟨rfl, load_logo_scale envOkLogo "/l.png" 300 imgW rfl⟩

/-- C9: an empty or whitespace-only logo answer disables compositing for
the entire run — `load_logo` and `embed_logo` are never invoked and all
three outputs are the plain rendered QR images. -/
theorem blank_logo_plain (env : Env) (vcfRaw logoRaw text : String)
    (hv : env.fsRead (cleanPath env vcfRaw) = .ok text)
    (hf : fitsQR text = true)
    (hb : pyStrip logoRaw = "") :
    (mainRun env vcfRaw logoRaw).1 = .ok () ∧
    (mainRun env vcfRaw logoRaw).2.loads = [] ∧
    (mainRun env vcfRaw logoRaw).2.embeds = 0 ∧
    (mainRun env vcfRaw logoRaw).2.writes
      = [(stemOf (cleanPath env vcfRaw) ++ "_300px.png", renderQR text 300),
         (stemOf (cleanPath env vcfRaw) ++ "_600px.png", renderQR text 600),
         (stemOf (cleanPath env vcfRaw) ++ "_1000px.png", renderQR text 1000)] := by
  obtain ⟨v, hver⟩ := Option.isSome_iff_exists.mp (by simpa [fitsQR] using hf)
  simp [mainRun, read_vcf, hv, hb, STANDARD_SIZES, runSizes, make_qr_image, hver,
    emptyTrace, renderQR, String.append_assoc]
  exact ⟨rfl, rfl, rfl⟩

/-- Witness for C9 on a whitespace-only logo answer. -/
theorem blank_logo_plain_witness :
    envOkLogo.fsRead (cleanPath envOkLogo "/a.vcf") = .ok "x" ∧
    fitsQR "x" = true ∧
    pyStrip "   " = "" ∧
    ((mainRun envOkLogo "/a.vcf" "   ").1 = .ok () ∧
     (mainRun envOkLogo "/a.vcf" "   ").2.loads = [] ∧
     (mainRun envOkLogo "/a.vcf" "   ").2.embeds = 0 ∧
     (mainRun envOkLogo "/a.vcf" "   ").2.writes
       = [(stemOf (cleanPath envOkLogo "/a.vcf") ++ "_300px.png", renderQR "x" 300),
          (stemOf (cleanPath envOkLogo "/a.vcf") ++ "_600px.png", renderQR "x" 600),
          (stemOf (cleanPath envOkLogo "/a.vcf") ++ "_1000px.png", renderQR "x" 1000)]) :=
  ⟨rfl, by decide, by decide,
    blank_logo_plain envOkLogo "/a.vcf" "   " "x" rfl (by decide) (by decide)⟩

/-- C10: the blank check inspects the raw answer before quote stripping:
an answer of just a matching quote pair (or a single lone quote) is not
blank, cleans to the empty string, resolves to the working directory,
`load_logo` is invoked on it, and the run dies through `sys.exit` instead
of disabling the logo. -/
theorem quoted_blank_logo_fatal (env : Env) (vcfRaw logoRaw text e : String)
    (hv : env.fsRead (cleanPath env vcfRaw) = .ok text)
    (hf : fitsQR text = true)
    (hq : logoRaw = String.mk [dquo, dquo] ∨ logoRaw = String.singleton dquo)
    (hcwd : normalizePath (env.cwd ++ "/") = env.cwd)
    (hl : env.logoAt env.cwd = .error e) :
    cleanPath env logoRaw = env.cwd ∧
    (mainRun env vcfRaw logoRaw).1 = .sysExit ("❌ Failed to load logo (" ++ e ++ ")") ∧
    (mainRun env vcfRaw logoRaw).2.loads = [300] ∧
    (mainRun env vcfRaw logoRaw).2.writes = [] := by
  obtain ⟨v, hver⟩ := Option.isSome_iff_exists.mp (by simpa [fitsQR] using hf)
  rcases hq with rfl | rfl
  · have hclean : cleanPath env (String.mk [dquo, dquo]) = env.cwd := by
      rw [show cleanPath env (String.mk [dquo, dquo])
            = normalizePath (env.cwd ++ "/" ++ "") from rfl,
          str_append_empty, hcwd]
    have hs : pyStrip (String.mk [dquo, dquo]) ≠ "" := by decide
    refine ⟨hclean, ?_⟩
    simp [mainRun, read_vcf, hv, hs, STANDARD_SIZES, runSizes, make_qr_image, hver,
      load_logo, hclean, hl, emptyTrace]
  · have hclean : cleanPath env (String.singleton dquo) = env.cwd := by
      rw [show cleanPath env (String.singleton dquo)
            = normalizePath (env.cwd ++ "/" ++ "") from rfl,
          str_append_empty, hcwd]
    have hs : pyStrip (String.singleton dquo) ≠ "" := by decide
    refine ⟨hclean, ?_⟩
    simp [mainRun, read_vcf, hv, hs, STANDARD_SIZES, runSizes, make_qr_image, hver,
      load_logo, hclean, hl, emptyTrace]

/-- Witness for C10: answering a pair of double quotes to the logo prompt
resolves to the working directory and aborts the run fatally. -/
theorem quoted_blank_logo_fatal_witness :
    envBadLogo.fsRead (cleanPath envBadLogo "/a.vcf") = .ok "x" ∧
    fitsQR "x" = true ∧
    (String.mk [dquo, dquo] = String.mk [dquo, dquo]
      ∨ String.mk [dquo, dquo] = String.singleton dquo) ∧
    normalizePath (envBadLogo.cwd ++ "/") = envBadLogo.cwd ∧
    envBadLogo.logoAt envBadLogo.cwd = .error "cannot identify image file" ∧
    (cleanPath envBadLogo (String.mk [dquo, dquo]) = envBadLogo.cwd ∧
     (mainRun envBadLogo "/a.vcf" (String.mk [dquo, dquo])).1
       = .sysExit ("❌ Failed to load logo (" ++ "cannot identify image file" ++ ")") ∧
     (mainRun envBadLogo "/a.vcf" (String.mk [dquo, dquo])).2.loads = [300] ∧
     (mainRun envBadLogo "/a.vcf" (String.mk [dquo, dquo])).2.writes = []) :=
  ⟨rfl, by decide, Or.inl rfl, by decide, rfl,
    quoted_blank_logo_fatal envBadLogo "/a.vcf" (String.mk [dquo, dquo]) "x"
      "cannot identify image file" rfl (by decide) (Or.inl rfl) (by decide) rfl⟩
